import Mathlib

/-!
# Verification of the pharmaguide session/user lifecycle manager

Shallow embedding of `src/hooks/useAuth.tsx`. Data types mirror the
TypeScript interfaces; JavaScript truthiness of `x || d` is modelled
explicitly (`none` and the empty string / zero are falsy, arrays and
objects are always truthy). Each imperative operation of the manager is
embedded as a pure function from its backend-call results to the ordered
list of state effects it performs plus the exception it re-raises, and
`applyEffects` folds those effects over the manager state
`(user, session, loading, error, storage)`.
-/

namespace PharmaGuide

/-- JS `s || d` for an optional string: `undefined`/`null` and `""` are falsy. -/
def jsOrStr (x : Option String) (d : String) : String :=
  match x with
  | some s => if s = "" then d else s
  | none => d

/-- JS `s || null` for an optional string: collapses `""` to `null`. -/
def jsTruthyStr (x : Option String) : Option String :=
  match x with
  | some s => if s = "" then none else some s
  | none => none

/-- JS `n || d` for an optional integer: `undefined`/`null` and `0` are falsy. -/
def jsOrInt (x : Option Int) (d : Int) : Int :=
  match x with
  | some v => if v = 0 then d else v
  | none => d

/-- Nested `notifications` object of `user_preferences`. -/
structure NotificationSettings where
  push_enabled : Bool
  email_enabled : Bool
  reminder_frequency : String
deriving DecidableEq, Repr

/-- Raw `user_profiles` row joined into the user record. -/
structure DbProfile where
  first_name : Option String
  last_name : Option String
  age : Option Int
  gender : Option String
  health_goals : Option (List String)
  conditions : Option (List String)
  medications : Option (List String)
  allergies : Option (List String)
  genetics : Option String
deriving DecidableEq, Repr

/-- Raw `user_preferences` row joined into the user record. -/
structure DbPreferences where
  ai_response_style : Option String
  budget_range : Option String
  primary_focus : Option String
  notifications : Option NotificationSettings
deriving DecidableEq, Repr

/-- Raw `user_points` row joined into the user record. -/
structure DbPoints where
  total_points : Option Int
  level : Option Int
deriving DecidableEq, Repr

/-- Raw `user_streaks` row joined into the user record. -/
structure DbStreaks where
  current_streak : Option Int
  longest_streak : Option Int
  last_activity_date : Option String
deriving DecidableEq, Repr

/-- `DatabaseUserWithRelations`: the raw relational record fetched from the
backend (`users` row with nested relations). -/
structure DatabaseUserWithRelations where
  id : String
  auth_id : String
  email : Option String
  is_anonymous : Bool
  display_name : Option String
  created_at : String
  updated_at : String
  profile : Option DbProfile
  preferences : Option DbPreferences
  points : Option DbPoints
  streaks : Option DbStreaks
deriving DecidableEq, Repr

/-- Local view-model `UserProfile`. -/
structure UserProfile where
  firstName : Option String
  lastName : Option String
  age : Option Int
  gender : Option String
  healthGoals : List String
  conditions : List String
  medications : List String
  allergies : List String
  genetics : Option String
deriving DecidableEq, Repr

/-- Local view-model `UserPreferences`. -/
structure UserPreferences where
  aiResponseStyle : String
  budgetRange : String
  primaryFocus : String
  notifications : NotificationSettings
deriving DecidableEq, Repr

/-- Local view-model `UserPoints`. `levelTitle` is `Option` because the JS
title lookup yields `undefined` for indices outside the list. -/
structure UserPoints where
  total : Int
  level : Int
  levelTitle : Option String
  nextLevelAt : Int
deriving DecidableEq, Repr

/-- Local view-model `UserStreaks`. -/
structure UserStreaks where
  current : Int
  longest : Int
  lastActivity : Option String
deriving DecidableEq, Repr

/-- Local view-model `User`. `points`/`streaks` are `undefined` when the
corresponding rows are absent. -/
structure User where
  id : String
  email : Option String
  is_anonymous : Bool
  profile : UserProfile
  preferences : UserPreferences
  points : Option UserPoints
  streaks : Option UserStreaks
  createdAt : String
  updatedAt : String
deriving DecidableEq, Repr

/-- The fixed ordered list of ten level titles from `getLevelTitle`. -/
def titles : List String :=
  [ "Health Novice"
  , "Wellness Explorer"
  , "Supplement Scholar"
  , "Nutrition Navigator"
  , "Health Guardian"
  , "Wellness Warrior"
  , "Supplement Sage"
  , "Health Master"
  , "Wellness Wizard"
  , "PharmaGuide Legend" ]

/-- `getLevelTitle`: `titles[Math.min(level - 1, titles.length - 1)]`.
A negative index yields `undefined` in JS, hence `Option`. -/
def getLevelTitle (level : Int) : Option String :=
  let i : Int := min (level - 1) ((titles.length : Int) - 1)
  if i < 0 then none else titles.get? i.toNat

/-- Default notifications object used by `transformDatabaseUser`. -/
def defaultNotifications : NotificationSettings :=
  { push_enabled := true, email_enabled := true, reminder_frequency := "daily" }

/-- `transformDatabaseUser`: transform the raw database record into the app
`User` format (returns `null` on a null input). -/
def transformDatabaseUser : Option DatabaseUserWithRelations → Option User
  | none => none
  | some dbUser =>
    some
      { id := dbUser.id
      , email := dbUser.email
      , is_anonymous := dbUser.is_anonymous
      , profile :=
          match dbUser.profile with
          | some p =>
              { firstName := p.first_name
              , lastName := p.last_name
              , age := p.age
              , gender := p.gender
              , healthGoals := p.health_goals.getD []
              , conditions := p.conditions.getD []
              , medications := p.medications.getD []
              , allergies := p.allergies.getD []
              , genetics := jsTruthyStr p.genetics }
          | none =>
              { firstName := none
              , lastName := none
              , age := none
              , gender := none
              , healthGoals := []
              , conditions := []
              , medications := []
              , allergies := []
              , genetics := none }
      , preferences :=
          match dbUser.preferences with
          | some q =>
              { aiResponseStyle := jsOrStr q.ai_response_style "concise"
              , budgetRange := jsOrStr q.budget_range "mid"
              , primaryFocus := jsOrStr q.primary_focus "safety"
              , notifications := q.notifications.getD defaultNotifications }
          | none =>
              { aiResponseStyle := "concise"
              , budgetRange := "mid"
              , primaryFocus := "safety"
              , notifications := defaultNotifications }
      , points :=
          match dbUser.points with
          | some pt =>
              some
                { total := jsOrInt pt.total_points 0
                , level := jsOrInt pt.level 1
                , levelTitle := getLevelTitle (jsOrInt pt.level 1)
                , nextLevelAt := (Int.fdiv (jsOrInt pt.total_points 0) 100 + 1) * 100 }
          | none => none
      , streaks :=
          match dbUser.streaks with
          | some s =>
              some
                { current := jsOrInt s.current_streak 0
                , longest := jsOrInt s.longest_streak 0
                , lastActivity := s.last_activity_date }
          | none => none
      , createdAt := dbUser.created_at
      , updatedAt := dbUser.updated_at }

/-- Error object returned by a failed backend call (supabase `AuthError` /
`PostgrestError`); `message`/`code` may be missing or empty. -/
structure BackendError where
  message : Option String
  code : Option String
deriving DecidableEq, Repr

/-- Structured `AuthError` stored in the manager's `error` state:
`{message, code, originalError}`. -/
structure AuthError where
  message : String
  code : String
  originalError : BackendError
deriving DecidableEq, Repr

/-- `error.message || defMsg` / `error.code || defCode` packaging done in each
catch block. -/
def mkAuthError (e : BackendError) (defMsg defCode : String) : AuthError :=
  { message := jsOrStr e.message defMsg
  , code := jsOrStr e.code defCode
  , originalError := e }

/-- Authenticated principal returned by the backend auth surface
(supabase `User`): opaque id and optional email. -/
structure SupaUser where
  id : String
  email : Option String
deriving DecidableEq, Repr

/-- Backend session: credential bundle with its authenticated principal. -/
structure Session where
  user : SupaUser
  accessToken : String
deriving DecidableEq, Repr

/-- One observable step performed by a manager operation: a state-setter,
a local-storage write, or a backend call (backend calls carry their
arguments and do not change manager state). -/
inductive Effect
  | setUser (u : Option User)
  | setSession (s : Option Session)
  | setLoading (b : Bool)
  | setError (e : Option AuthError)
  | storageSet (key value : String)
  | storageRemove (key : String)
  | callRpcCreateUser (pAuthId : String) (pEmail : Option String) (pIsAnonymous : Bool)
  | callFetchUser (authId : String)
  | callAuthGetSession
  | callAuthSignInAnonymously
  | callAuthSignInWithPassword (email password : String)
  | callAuthSignUp (email password : String)
  | callAuthSignOut
deriving DecidableEq, Repr

/-- The manager's mutable state: the `(user, session, loading, error)` tuple
plus the local key-value store (an association list). -/
structure ManagerState where
  user : Option User
  session : Option Session
  loading : Bool
  error : Option AuthError
  storage : List (String × String)
deriving DecidableEq, Repr

/-- Remove a key from the key-value store. -/
def removeKV (l : List (String × String)) (k : String) : List (String × String) :=
  l.filter (fun p => p.1 ≠ k)

/-- Set a key in the key-value store. -/
def setKV (l : List (String × String)) (k v : String) : List (String × String) :=
  (k, v) :: removeKV l k

/-- Look a key up in the key-value store. -/
def lookupKV (l : List (String × String)) (k : String) : Option String :=
  l.lookup k

/-- Apply one effect to the manager state; backend-call effects are
state-neutral markers. -/
def applyEffect (st : ManagerState) : Effect → ManagerState
  | .setUser u => { st with user := u }
  | .setSession s => { st with session := s }
  | .setLoading b => { st with loading := b }
  | .setError e => { st with error := e }
  | .storageSet k v => { st with storage := setKV st.storage k v }
  | .storageRemove k => { st with storage := removeKV st.storage k }
  | .callRpcCreateUser _ _ _ => st
  | .callFetchUser _ => st
  | .callAuthGetSession => st
  | .callAuthSignInAnonymously => st
  | .callAuthSignInWithPassword _ _ => st
  | .callAuthSignUp _ _ => st
  | .callAuthSignOut => st

/-- Run a list of effects in order. -/
def applyEffects (st : ManagerState) (effs : List Effect) : ManagerState :=
  effs.foldl applyEffect st

/-- `createOrUpdateUser`: invoke the `create_user_with_profile` RPC with
`p_auth_id`, `p_email: authUser.email || null`, `p_is_anonymous:
!authUser.email`; on RPC success fetch the full record and transform it.
Every failure is caught internally and becomes a `null` result.
`rpcResult` is the RPC outcome (returned user id or error), `fetchResult`
the row returned by `fetchUserWithRelations` (`none` on error or no row). -/
def createOrUpdateUser (rpcResult : Except BackendError String)
    (fetchResult : Option DatabaseUserWithRelations) (authUser : SupaUser) :
    List Effect × Option User :=
  let callRpc := Effect.callRpcCreateUser authUser.id (jsTruthyStr authUser.email)
      (jsTruthyStr authUser.email).isNone
  match rpcResult with
  | .error _ => ([callRpc], none)
  | .ok _ =>
    match fetchResult with
    | none => ([callRpc, .callFetchUser authUser.id], none)
    | some dbUser =>
        ([callRpc, .callFetchUser authUser.id], transformDatabaseUser (some dbUser))

/-- Shared tail of the sign-in flows and the auth-change handler:
materialize the user, `setUser(profile)`, and persist the id iff a profile
was produced. -/
def materializeAndStore (rpcResult : Except BackendError String)
    (fetchResult : Option DatabaseUserWithRelations) (authUser : SupaUser) :
    List Effect :=
  let r := createOrUpdateUser rpcResult fetchResult authUser
  r.1 ++ [Effect.setUser r.2] ++
    (match r.2 with
     | some p => [Effect.storageSet "current_user_id" p.id]
     | none => [])

/-- `signInAnonymously`: effects performed and the exception re-raised to the
caller. `authResult` is the backend sign-in outcome (`data.user` may be
absent on success). -/
def signInAnonymously (authResult : Except BackendError (Option SupaUser))
    (rpcResult : Except BackendError String)
    (fetchResult : Option DatabaseUserWithRelations) :
    List Effect × Option BackendError :=
  let entry := [Effect.setLoading true, Effect.setError none,
    Effect.callAuthSignInAnonymously]
  match authResult with
  | .error e =>
      (entry ++ [Effect.setError (some (mkAuthError e "Failed to sign in anonymously"
        "auth/anonymous-failed")), Effect.setLoading false], some e)
  | .ok none => (entry ++ [Effect.setLoading false], none)
  | .ok (some u) =>
      (entry ++ materializeAndStore rpcResult fetchResult u ++
        [Effect.setLoading false], none)

/-- `signInWithEmail(email, password)`. -/
def signInWithEmail (email password : String)
    (authResult : Except BackendError (Option SupaUser))
    (rpcResult : Except BackendError String)
    (fetchResult : Option DatabaseUserWithRelations) :
    List Effect × Option BackendError :=
  let entry := [Effect.setLoading true, Effect.setError none,
    Effect.callAuthSignInWithPassword email password]
  match authResult with
  | .error e =>
      (entry ++ [Effect.setError (some (mkAuthError e "Failed to sign in"
        "auth/sign-in-failed")), Effect.setLoading false], some e)
  | .ok none => (entry ++ [Effect.setLoading false], none)
  | .ok (some u) =>
      (entry ++ materializeAndStore rpcResult fetchResult u ++
        [Effect.setLoading false], none)

/-- `signUpWithEmail(email, password)`. -/
def signUpWithEmail (email password : String)
    (authResult : Except BackendError (Option SupaUser))
    (rpcResult : Except BackendError String)
    (fetchResult : Option DatabaseUserWithRelations) :
    List Effect × Option BackendError :=
  let entry := [Effect.setLoading true, Effect.setError none,
    Effect.callAuthSignUp email password]
  match authResult with
  | .error e =>
      (entry ++ [Effect.setError (some (mkAuthError e "Failed to sign up"
        "auth/sign-up-failed")), Effect.setLoading false], some e)
  | .ok none => (entry ++ [Effect.setLoading false], none)
  | .ok (some u) =>
      (entry ++ materializeAndStore rpcResult fetchResult u ++
        [Effect.setLoading false], none)

/-- `signOut`: on backend success clear user, session and the persisted id;
on backend error set the structured error and re-raise. -/
def signOut (signOutResult : Option BackendError) :
    List Effect × Option BackendError :=
  let entry := [Effect.setLoading true, Effect.setError none, Effect.callAuthSignOut]
  match signOutResult with
  | some e =>
      (entry ++ [Effect.setError (some (mkAuthError e "Failed to sign out"
        "auth/sign-out-failed")), Effect.setLoading false], some e)
  | none =>
      (entry ++ [Effect.setUser none, Effect.setSession none,
        Effect.storageRemove "current_user_id", Effect.setLoading false], none)

/-- `refreshUser`: no-op when no session is active; otherwise re-fetch and,
only when a row comes back, replace the in-memory user. Fetch failures are
logged and absorbed. -/
def refreshUser (session : Option Session)
    (fetchResult : Option DatabaseUserWithRelations) : List Effect :=
  match session with
  | none => []
  | some s =>
      [Effect.callFetchUser s.user.id] ++
        (match fetchResult with
         | some dbUser => [Effect.setUser (transformDatabaseUser (some dbUser))]
         | none => [])

/-- `clearError`: set error to `null`. -/
def clearErrorEffects : List Effect := [Effect.setError none]

/-- The `onAuthStateChange` subscription handler: new session → store it and
re-materialize; no session → clear session, clear user, remove the
persisted id. -/
def authChangeHandler (session : Option Session)
    (rpcResult : Except BackendError String)
    (fetchResult : Option DatabaseUserWithRelations) : List Effect :=
  match session with
  | some s =>
      [Effect.setSession (some s)] ++ materializeAndStore rpcResult fetchResult s.user
  | none =>
      [Effect.setSession none, Effect.setUser none,
        Effect.storageRemove "current_user_id"]

/-- `initializeAuth`: startup protocol — get the current session, materialize
when one exists, always clear `loading` in the finally step. -/
def initializeAuth (getSessionResult : Option Session)
    (rpcResult : Except BackendError String)
    (fetchResult : Option DatabaseUserWithRelations) : List Effect :=
  match getSessionResult with
  | some s =>
      [Effect.callAuthGetSession, Effect.setSession (some s)] ++
        materializeAndStore rpcResult fetchResult s.user ++ [Effect.setLoading false]
  | none => [Effect.callAuthGetSession, Effect.setLoading false]

/-! ## Sample data used by witnesses and counterexamples -/

/-- A raw record with every optional backend field absent. -/
def emptyDbUser : DatabaseUserWithRelations :=
  { id := "user-1", auth_id := "auth-1", email := none, is_anonymous := true
  , display_name := none, created_at := "2024-01-01", updated_at := "2024-01-02"
  , profile := none, preferences := none, points := none, streaks := none }

/-- A raw record whose sub-rows are present but have their inner optional
fields absent. -/
def hollowDbUser : DatabaseUserWithRelations :=
  { id := "user-2", auth_id := "auth-2", email := some "a@b.c", is_anonymous := false
  , display_name := none, created_at := "2024-01-01", updated_at := "2024-01-02"
  , profile := some ⟨none, none, none, none, none, none, none, none, none⟩
  , preferences := some ⟨none, none, none, none⟩
  , points := some ⟨none, none⟩
  , streaks := some ⟨none, none, none⟩ }

/-- The transformed view model of `hollowDbUser` (concrete evaluation of the
transformation, used by witnesses). -/
def sampleTransformedHollow : User :=
  { id := "user-2", email := some "a@b.c", is_anonymous := false
  , profile := ⟨none, none, none, none, [], [], [], [], none⟩
  , preferences := ⟨"concise", "mid", "safety", defaultNotifications⟩
  , points := some ⟨0, 1, some "Health Novice", 100⟩
  , streaks := some ⟨0, 0, none⟩
  , createdAt := "2024-01-01", updatedAt := "2024-01-02" }

/-- A concrete start state with a signed-in user. -/
def sampleUser : User :=
  { id := "user-1", email := none, is_anonymous := true
  , profile := ⟨none, none, none, none, [], [], [], [], none⟩
  , preferences := ⟨"concise", "mid", "safety", defaultNotifications⟩
  , points := none, streaks := none
  , createdAt := "2024-01-01", updatedAt := "2024-01-02" }

/-- A concrete session for the sample principal. -/
def sampleSession : Session := { user := ⟨"auth-1", none⟩, accessToken := "tok" }

/-- A concrete signed-in manager state whose store holds the persisted id. -/
def signedInState : ManagerState :=
  { user := some sampleUser, session := some sampleSession, loading := false
  , error := none, storage := [("current_user_id", "user-1")] }

/-- A concrete logged-out manager state. -/
def loggedOutState : ManagerState :=
  { user := none, session := none, loading := false, error := none, storage := [] }

/-! ## Claims -/

/-- **C1.** The database-record-to-`User` transformation is a deterministic,
total function of the raw record: it always produces a value, applying it
twice to the same record gives structurally equal results, and every `User`
field falls back to its defined default (empty list, null, or a fixed
constant) whenever the corresponding backend field is absent or null. -/
theorem C1_transform_deterministic_and_defaulted (R : DatabaseUserWithRelations) :
    (transformDatabaseUser (some R)).isSome = true ∧
    transformDatabaseUser (some R) = transformDatabaseUser (some R) ∧
    ∀ u, transformDatabaseUser (some R) = some u →
      (R.profile = none → u.profile = ⟨none, none, none, none, [], [], [], [], none⟩) ∧
      (R.preferences = none → u.preferences = ⟨"concise", "mid", "safety", defaultNotifications⟩) ∧
      (R.points = none → u.points = none) ∧
      (R.streaks = none → u.streaks = none) ∧
      (∀ p, R.profile = some p →
        (p.health_goals = none → u.profile.healthGoals = []) ∧
        (p.conditions = none → u.profile.conditions = []) ∧
        (p.medications = none → u.profile.medications = []) ∧
        (p.allergies = none → u.profile.allergies = []) ∧
        (p.genetics = none → u.profile.genetics = none)) ∧
      (∀ q, R.preferences = some q →
        (q.ai_response_style = none → u.preferences.aiResponseStyle = "concise") ∧
        (q.budget_range = none → u.preferences.budgetRange = "mid") ∧
        (q.primary_focus = none → u.preferences.primaryFocus = "safety") ∧
        (q.notifications = none → u.preferences.notifications = defaultNotifications)) ∧
      (∀ pt, R.points = some pt →
        ∃ up, u.points = some up ∧
          (pt.total_points = none → up.total = 0 ∧ up.nextLevelAt = 100) ∧
          (pt.level = none → up.level = 1 ∧ up.levelTitle = some "Health Novice")) ∧
      (∀ s, R.streaks = some s →
        ∃ us, u.streaks = some us ∧
          (s.current_streak = none → us.current = 0) ∧
          (s.longest_streak = none → us.longest = 0)) := by
  refine ⟨rfl, rfl, ?_⟩
  intro u hu
  simp only [transformDatabaseUser, Option.some.injEq] at hu
  subst hu
  refine ⟨?_, ?_, ?_, ?_, ?_, ?_, ?_, ?_⟩
  · intro h; simp [h]
  · intro h; simp [h]
  · intro h; simp [h]
  · intro h; simp [h]
  · intro p hp
    refine ⟨?_, ?_, ?_, ?_, ?_⟩ <;> intro h <;> simp [hp, h, jsTruthyStr]
  · intro q hq
    refine ⟨?_, ?_, ?_, ?_⟩ <;> intro h <;> simp [hq, h, jsOrStr]
  · intro pt hpt
    refine ⟨{ total := jsOrInt pt.total_points 0, level := jsOrInt pt.level 1
            , levelTitle := getLevelTitle (jsOrInt pt.level 1)
            , nextLevelAt := (Int.fdiv (jsOrInt pt.total_points 0) 100 + 1) * 100 },
      by simp [hpt], ?_, ?_⟩
    · intro h; simp only [h]; decide
    · intro h; simp only [h]; decide
  · intro s hs
    refine ⟨{ current := jsOrInt s.current_streak 0, longest := jsOrInt s.longest_streak 0
            , lastActivity := s.last_activity_date },
      by simp [hs], ?_, ?_⟩
    · intro h; simp [h, jsOrInt]
    · intro h; simp [h, jsOrInt]

/-- Witness for C1 at the all-absent record: every hypothesis discharged at
`emptyDbUser` and at `hollowDbUser`. -/
theorem C1_transform_deterministic_and_defaulted_witness :
    (transformDatabaseUser (some emptyDbUser)).isSome = true ∧
    (∀ u, transformDatabaseUser (some emptyDbUser) = some u →
      u.profile = ⟨none, none, none, none, [], [], [], [], none⟩) := by
  refine ⟨(C1_transform_deterministic_and_defaulted emptyDbUser).1, ?_⟩
  intro u hu
  exact ((C1_transform_deterministic_and_defaulted emptyDbUser).2.2 u hu).1 rfl

/-- `getLevelTitle` with the list length evaluated: the index is
`min (L - 1) 9` and a negative index yields `undefined`. -/
theorem getLevelTitle_def (L : Int) :
    getLevelTitle L = if min (L - 1) 9 < 0 then none
      else titles.get? (min (L - 1) 9).toNat := by
  simp only [getLevelTitle]
  norm_num [titles]

/-- **C2.** For every level `L ≥ 1` the derived title equals the element at
index `min(L-1, 9)` of the fixed ten-name list (so every level 11 and above
maps to the last title), and for every points row the derived next-level
threshold of the transformed user equals `100 * (floor(total/100) + 1)`. -/
theorem C2_level_title_and_next_level :
    (∀ L : Int, 1 ≤ L →
      ∃ t, titles.get? (min (L - 1) 9).toNat = some t ∧ getLevelTitle L = some t) ∧
    (∀ L : Int, 11 ≤ L → getLevelTitle L = some "PharmaGuide Legend") ∧
    (∀ R u pt, transformDatabaseUser (some R) = some u → R.points = some pt →
      ∃ up, u.points = some up ∧
        up.nextLevelAt = 100 * (Int.fdiv up.total 100 + 1) ∧
        up.levelTitle = getLevelTitle up.level) := by
  refine ⟨?_, ?_, ?_⟩
  · intro L hL
    have hlen : titles.length = 10 := rfl
    have hge : (0 : Int) ≤ min (L - 1) 9 := le_min (by omega) (by omega)
    have h9 : min (L - 1) 9 ≤ (9 : Int) := min_le_right _ _
    have hlt : (min (L - 1) 9).toNat < titles.length := by
      rw [hlen]; omega
    refine ⟨titles.get ⟨(min (L - 1) 9).toNat, hlt⟩, List.get?_eq_get hlt, ?_⟩
    rw [getLevelTitle_def, if_neg (by omega), List.get?_eq_get hlt]
  · intro L hL
    have hmin : min (L - 1) (9 : Int) = 9 := min_eq_right (by omega)
    rw [getLevelTitle_def, hmin]
    decide
  · intro R u pt hu hpt
    simp only [transformDatabaseUser, Option.some.injEq] at hu
    subst hu
    refine ⟨{ total := jsOrInt pt.total_points 0, level := jsOrInt pt.level 1
            , levelTitle := getLevelTitle (jsOrInt pt.level 1)
            , nextLevelAt := (Int.fdiv (jsOrInt pt.total_points 0) 100 + 1) * 100 },
      by simp [hpt], by ring, rfl⟩

/-- Witness for C2: level 3 hits the third title, level 12 the last, and the
hollow points row yields threshold 100. -/
theorem C2_level_title_and_next_level_witness :
    (∃ t, titles.get? (min ((3 : Int) - 1) 9).toNat = some t ∧
      getLevelTitle 3 = some t) ∧
    getLevelTitle 12 = some "PharmaGuide Legend" ∧
    (∃ up, (sampleTransformedHollow).points = some up ∧
      up.nextLevelAt = 100 * (Int.fdiv up.total 100 + 1) ∧
      up.levelTitle = getLevelTitle up.level) := by
  refine ⟨C2_level_title_and_next_level.1 3 (by norm_num),
    C2_level_title_and_next_level.2.1 12 (by norm_num),
    C2_level_title_and_next_level.2.2 hollowDbUser sampleTransformedHollow ⟨none, none⟩
      ?_ rfl⟩
  rfl

/-! ## State-application lemmas -/

/-- Running concatenated effect lists runs them in sequence. -/
theorem applyEffects_append (st : ManagerState) (l1 l2 : List Effect) :
    applyEffects st (l1 ++ l2) = applyEffects (applyEffects st l1) l2 :=
  List.foldl_append applyEffect st l1 l2

/-- The backend calls issued by `createOrUpdateUser` do not change manager
state. -/
theorem applyEffects_createOrUpdateUser (rr : Except BackendError String)
    (fr : Option DatabaseUserWithRelations) (u : SupaUser) (st : ManagerState) :
    applyEffects st (createOrUpdateUser rr fr u).1 = st := by
  cases rr <;> cases fr <;> rfl

/-- A failed materialization only sets the in-memory user to `null`. -/
theorem applyEffects_materialize_none (rr : Except BackendError String)
    (fr : Option DatabaseUserWithRelations) (u : SupaUser) (st : ManagerState)
    (h : (createOrUpdateUser rr fr u).2 = none) :
    applyEffects st (materializeAndStore rr fr u) = { st with user := none } := by
  simp only [materializeAndStore, h]
  rw [List.append_nil, applyEffects_append, applyEffects_createOrUpdateUser]
  rfl

/-- A successful materialization sets the user and persists its id. -/
theorem applyEffects_materialize_some (rr : Except BackendError String)
    (fr : Option DatabaseUserWithRelations) (u : SupaUser) (st : ManagerState)
    (p : User) (h : (createOrUpdateUser rr fr u).2 = some p) :
    applyEffects st (materializeAndStore rr fr u) =
      { st with user := some p
              , storage := setKV st.storage "current_user_id" p.id } := by
  simp only [materializeAndStore, h]
  rw [applyEffects_append, applyEffects_append, applyEffects_createOrUpdateUser]
  rfl

/-- Removing a key makes it absent from the store. -/
theorem lookupKV_removeKV (l : List (String × String)) (k : String) :
    lookupKV (removeKV l k) k = none := by
  induction l with
  | nil => rfl
  | cons p t ih =>
      obtain ⟨k2, v⟩ := p
      by_cases h : k2 = k
      · simpa [removeKV, List.filter_cons, h] using ih
      · have hb : (k == k2) = false := beq_eq_false_iff_ne.mpr (Ne.symm h)
        have hf : removeKV ((k2, v) :: t) k = (k2, v) :: removeKV t k := by
          simp [removeKV, List.filter_cons, h]
        rw [hf]
        simpa [lookupKV, List.lookup, hb] using ih

/-! ## C3: loading/error discipline of the six operations -/

/-- An effect trace that begins by setting `loading=true`, `error=null` and
whose final step sets `loading=false`. -/
def entryExit (effs : List Effect) : Prop :=
  effs.take 2 = [Effect.setLoading true, Effect.setError none] ∧
  effs.getLast? = some (Effect.setLoading false)

/-- **C3, counterexample.** The claim says all six operations set
`loading=true` on entry; but a `refreshUser` run (here: with an active
session and a successful fetch) performs no `setLoading` at all, and
`clearError` does not either. -/
theorem C3_counterexample :
    Effect.setLoading true ∉ refreshUser (some sampleSession) (some emptyDbUser) ∧
    Effect.setLoading true ∉ clearErrorEffects := by
  constructor <;> decide

/-- **C3, amended.** The four backend-mutating operations
(`signInAnonymously`, `signInWithEmail`, `signUpWithEmail`, `signOut`) set
`loading=true` and `error=null` on entry and `loading=false` as their
guaranteed final step regardless of outcome; `refreshUser` never touches
`loading` or `error`, and `clearError` only sets `error=null`. -/
theorem C3_amended_loading_discipline :
    (∀ ar rr fr, entryExit (signInAnonymously ar rr fr).1) ∧
    (∀ em pw ar rr fr, entryExit (signInWithEmail em pw ar rr fr).1) ∧
    (∀ em pw ar rr fr, entryExit (signUpWithEmail em pw ar rr fr).1) ∧
    (∀ so, entryExit (signOut so).1) ∧
    (∀ s fr b, Effect.setLoading b ∉ refreshUser s fr) ∧
    (∀ s fr e, Effect.setError e ∉ refreshUser s fr) ∧
    (∀ b, Effect.setLoading b ∉ clearErrorEffects) ∧
    clearErrorEffects = [Effect.setError none] := by
  refine ⟨?_, ?_, ?_, ?_, ?_, ?_, ?_, rfl⟩
  · intro ar rr fr
    cases ar with
    | error e => exact ⟨rfl, rfl⟩
    | ok ou =>
        cases ou with
        | none => exact ⟨rfl, rfl⟩
        | some u => exact ⟨rfl, List.getLast?_concat _⟩
  · intro em pw ar rr fr
    cases ar with
    | error e => exact ⟨rfl, rfl⟩
    | ok ou =>
        cases ou with
        | none => exact ⟨rfl, rfl⟩
        | some u => exact ⟨rfl, List.getLast?_concat _⟩
  · intro em pw ar rr fr
    cases ar with
    | error e => exact ⟨rfl, rfl⟩
    | ok ou =>
        cases ou with
        | none => exact ⟨rfl, rfl⟩
        | some u => exact ⟨rfl, List.getLast?_concat _⟩
  · intro so
    cases so with
    | none => exact ⟨rfl, rfl⟩
    | some e => exact ⟨rfl, rfl⟩
  · intro s fr b
    cases s with
    | none => simp [refreshUser]
    | some s0 => cases fr <;> simp [refreshUser]
  · intro s fr e
    cases s with
    | none => simp [refreshUser]
    | some s0 => cases fr <;> simp [refreshUser]
  · intro b; simp [clearErrorEffects]

/-! ## C4: materialization failure after raw sign-in success -/

/-- Materialization fails: the RPC errors or the follow-up fetch returns no
row. -/
def materializationFails (rpcResult : Except BackendError String)
    (fetchResult : Option DatabaseUserWithRelations) : Prop :=
  (∃ e, rpcResult = .error e) ∨ fetchResult = none

/-- A failing materialization produces a `null` profile. -/
theorem createOrUpdateUser_fail (rr : Except BackendError String)
    (fr : Option DatabaseUserWithRelations) (u : SupaUser)
    (h : materializationFails rr fr) : (createOrUpdateUser rr fr u).2 = none := by
  rcases h with ⟨e, he⟩ | hf
  · subst he; rfl
  · subst hf; cases rr <;> rfl

/-- A session notification whose materialization fails stores the session and
nulls the user. -/
theorem authChangeHandler_matfail (st : ManagerState) (sess : Session)
    (rr : Except BackendError String) (fr : Option DatabaseUserWithRelations)
    (h : (createOrUpdateUser rr fr sess.user).2 = none) :
    applyEffects st (authChangeHandler (some sess) rr fr) =
      { st with session := some sess, user := none } := by
  simp only [authChangeHandler]
  rw [show (([Effect.setSession (some sess)] ++ materializeAndStore rr fr sess.user) :
      List Effect) = Effect.setSession (some sess) :: materializeAndStore rr fr sess.user
      from rfl]
  rw [show applyEffects st (Effect.setSession (some sess) ::
      materializeAndStore rr fr sess.user) =
      applyEffects { st with session := some sess }
        (materializeAndStore rr fr sess.user) from rfl]
  rw [applyEffects_materialize_none _ _ _ _ h]

/-- **C4.** For each of the three sign-in/sign-up operations: when the raw
backend authentication succeeds but materialization fails (in the operation
and in the session notification it triggers), no exception escapes the
operation, and after the notification is handled the state has a non-null
session and a null user. -/
theorem C4_matfail_session_set_user_null (st : ManagerState) (u : SupaUser)
    (sess : Session) (em pw : String)
    (rr1 rr2 : Except BackendError String)
    (fr1 fr2 : Option DatabaseUserWithRelations)
    (h1 : materializationFails rr1 fr1) (h2 : materializationFails rr2 fr2) :
    ((signInAnonymously (.ok (some u)) rr1 fr1).2 = none ∧
      (applyEffects st (signInAnonymously (.ok (some u)) rr1 fr1).1).user = none ∧
      (applyEffects st ((signInAnonymously (.ok (some u)) rr1 fr1).1 ++
        authChangeHandler (some sess) rr2 fr2)).session = some sess ∧
      (applyEffects st ((signInAnonymously (.ok (some u)) rr1 fr1).1 ++
        authChangeHandler (some sess) rr2 fr2)).user = none) ∧
    ((signInWithEmail em pw (.ok (some u)) rr1 fr1).2 = none ∧
      (applyEffects st (signInWithEmail em pw (.ok (some u)) rr1 fr1).1).user = none ∧
      (applyEffects st ((signInWithEmail em pw (.ok (some u)) rr1 fr1).1 ++
        authChangeHandler (some sess) rr2 fr2)).session = some sess ∧
      (applyEffects st ((signInWithEmail em pw (.ok (some u)) rr1 fr1).1 ++
        authChangeHandler (some sess) rr2 fr2)).user = none) ∧
    ((signUpWithEmail em pw (.ok (some u)) rr1 fr1).2 = none ∧
      (applyEffects st (signUpWithEmail em pw (.ok (some u)) rr1 fr1).1).user = none ∧
      (applyEffects st ((signUpWithEmail em pw (.ok (some u)) rr1 fr1).1 ++
        authChangeHandler (some sess) rr2 fr2)).session = some sess ∧
      (applyEffects st ((signUpWithEmail em pw (.ok (some u)) rr1 fr1).1 ++
        authChangeHandler (some sess) rr2 fr2)).user = none) := by
  have hm := createOrUpdateUser_fail rr2 fr2 sess.user h2
  have hm1 := createOrUpdateUser_fail rr1 fr1 u h1
  refine ⟨⟨rfl, ?_, ?_, ?_⟩, ⟨rfl, ?_, ?_, ?_⟩, ⟨rfl, ?_, ?_, ?_⟩⟩
  case refine_1 =>
    show (applyEffects st ([Effect.setLoading true, Effect.setError none,
      Effect.callAuthSignInAnonymously] ++ materializeAndStore rr1 fr1 u ++
      [Effect.setLoading false])).user = none
    rw [applyEffects_append, applyEffects_append,
      applyEffects_materialize_none _ _ _ _ hm1]
    rfl
  case refine_4 =>
    show (applyEffects st ([Effect.setLoading true, Effect.setError none,
      Effect.callAuthSignInWithPassword em pw] ++ materializeAndStore rr1 fr1 u ++
      [Effect.setLoading false])).user = none
    rw [applyEffects_append, applyEffects_append,
      applyEffects_materialize_none _ _ _ _ hm1]
    rfl
  case refine_7 =>
    show (applyEffects st ([Effect.setLoading true, Effect.setError none,
      Effect.callAuthSignUp em pw] ++ materializeAndStore rr1 fr1 u ++
      [Effect.setLoading false])).user = none
    rw [applyEffects_append, applyEffects_append,
      applyEffects_materialize_none _ _ _ _ hm1]
    rfl
  all_goals rw [applyEffects_append, authChangeHandler_matfail _ _ _ _ hm]

/-- Witness for C4 at concrete inputs (anonymous sign-in, RPC succeeding but
fetch returning no row). -/
theorem C4_matfail_witness :
    (signInAnonymously (.ok (some ⟨"auth-1", none⟩)) (.ok "user-1") none).2 = none ∧
    (applyEffects signedInState
      (signInAnonymously (.ok (some ⟨"auth-1", none⟩)) (.ok "user-1") none).1).user
      = none ∧
    (applyEffects signedInState
      ((signInAnonymously (.ok (some ⟨"auth-1", none⟩)) (.ok "user-1") none).1 ++
        authChangeHandler (some sampleSession) (.ok "user-1") none)).session =
      some sampleSession ∧
    (applyEffects signedInState
      ((signInAnonymously (.ok (some ⟨"auth-1", none⟩)) (.ok "user-1") none).1 ++
        authChangeHandler (some sampleSession) (.ok "user-1") none)).user = none :=
  (C4_matfail_session_set_user_null signedInState ⟨"auth-1", none⟩ sampleSession
    "e@x.com" "pw123456" (.ok "user-1") (.ok "user-1") none none
    (Or.inr rfl) (Or.inr rfl)).1

/-! ## C5: successful sign-out clears everything -/

/-- **C5.** After a successful `signOut()` (backend call returns no error):
the in-memory user and session are `null` and the persisted
`"current_user_id"` key is absent, from any prior state. -/
theorem C5_signOut_success_clears (st : ManagerState) :
    (signOut none).2 = none ∧
    (applyEffects st (signOut none).1).user = none ∧
    (applyEffects st (signOut none).1).session = none ∧
    lookupKV (applyEffects st (signOut none).1).storage "current_user_id" = none :=
  ⟨rfl, rfl, rfl, lookupKV_removeKV st.storage "current_user_id"⟩

/-! ## C6: "no session" notification clears state without signOut -/

/-- **C6.** When the subscription handler receives a "no session"
notification while a user and a session are set, it nulls both, removes the
persisted id, and performs no backend sign-out call. -/
theorem C6_no_session_notification (st : ManagerState) (u0 : User) (s0 : Session)
    (rr : Except BackendError String) (fr : Option DatabaseUserWithRelations)
    (_hu : st.user = some u0) (_hs : st.session = some s0) :
    Effect.callAuthSignOut ∉ authChangeHandler none rr fr ∧
    (applyEffects st (authChangeHandler none rr fr)).user = none ∧
    (applyEffects st (authChangeHandler none rr fr)).session = none ∧
    lookupKV (applyEffects st (authChangeHandler none rr fr)).storage
      "current_user_id" = none := by
  refine ⟨?_, rfl, rfl, lookupKV_removeKV st.storage "current_user_id"⟩
  simp [authChangeHandler]

/-- Witness for C6 at the concrete signed-in state. -/
theorem C6_no_session_notification_witness :
    Effect.callAuthSignOut ∉ authChangeHandler none (.ok "user-1") none ∧
    (applyEffects signedInState (authChangeHandler none (.ok "user-1") none)).user
      = none ∧
    (applyEffects signedInState (authChangeHandler none (.ok "user-1") none)).session
      = none ∧
    lookupKV (applyEffects signedInState
      (authChangeHandler none (.ok "user-1") none)).storage "current_user_id" = none :=
  C6_no_session_notification signedInState sampleUser sampleSession
    (.ok "user-1") none rfl rfl

/-! ## C7: anonymous flag passed to the RPC -/

/-- **C7, counterexample.** For the principal `⟨"u1", some ""⟩` — whose email
is present but empty — the RPC is invoked with anonymous flag `true`
(JS `!authUser.email` treats `""` as falsy), so the flag is not `true` only
if the email is absent. -/
theorem C7_counterexample :
    Effect.callRpcCreateUser "u1" none true ∈
      (createOrUpdateUser (.ok "user-9") none ⟨"u1", some ""⟩).1 ∧
    ¬ ((SupaUser.mk "u1" (some "")).email = none) := by
  constructor
  · decide
  · decide

/-- Modelled from the spec: the implementation of the remote
`create_user_with_profile` procedure and of the relational store is not part
of this repository (`src/` only names and invokes them). Per the spec's
external-interface section, the procedure ensures a `users` row for the
passed `auth_id` carrying the passed email and anonymous flag, and the
follow-up fetch filtered by that `auth_id` returns that row. -/
def rpcConsistentRow (pAuthId : String) (pEmail : Option String)
    (pIsAnonymous : Bool) (row : DatabaseUserWithRelations) : Prop :=
  row.auth_id = pAuthId ∧ row.email = pEmail ∧ row.is_anonymous = pIsAnonymous

/-- **C7, amended.** The materialization procedure invokes the RPC with an
anonymous flag that is true iff the principal's email is absent **or
empty** (the email argument itself is passed as null in exactly those
cases); consequently, for an anonymous principal (absent email) whose
materialization succeeds against a backend whose fetched row carries the
email and flag passed to the RPC, the resulting user has
`is_anonymous = true` and `email = null`. -/
theorem C7_amended_anonymous_flag (u : SupaUser)
    (rr : Except BackendError String) (fr : Option DatabaseUserWithRelations) :
    (Effect.callRpcCreateUser u.id (jsTruthyStr u.email)
        (jsTruthyStr u.email).isNone ∈ (createOrUpdateUser rr fr u).1) ∧
    ((jsTruthyStr u.email).isNone = true ↔
      (u.email = none ∨ u.email = some "")) ∧
    (∀ row rid usr, u.email = none →
      rpcConsistentRow u.id (jsTruthyStr u.email) (jsTruthyStr u.email).isNone row →
      (createOrUpdateUser (.ok rid) (some row) u).2 = some usr →
      usr.is_anonymous = true ∧ usr.email = none) := by
  obtain ⟨uid, ue⟩ := u
  refine ⟨?_, ?_, ?_⟩
  · cases rr <;> cases fr <;> simp [createOrUpdateUser]
  · rcases ue with _ | s
    · simp [jsTruthyStr]
    · by_cases hs : s = "" <;> simp [jsTruthyStr, hs]
  · intro row rid usr he hcons htr
    simp only at he
    subst he
    obtain ⟨_, hemail, hanon⟩ := hcons
    simp only [createOrUpdateUser, transformDatabaseUser, Option.some.injEq] at htr
    subst htr
    simp only [jsTruthyStr] at hemail hanon
    exact ⟨by simp [hanon], by simp [hemail]⟩

/-- Witness for C7: the anonymous principal `⟨"auth-1", none⟩` materialized
against the consistent row `emptyDbUser` yields a user with
`is_anonymous = true` and no email. -/
theorem C7_amended_anonymous_flag_witness :
    sampleUser.is_anonymous = true ∧ sampleUser.email = none :=
  (C7_amended_anonymous_flag ⟨"auth-1", none⟩ (.ok "user-1")
      (some emptyDbUser)).2.2 emptyDbUser "user-1" sampleUser rfl
    ⟨rfl, rfl, rfl⟩ rfl

/-! ## C8: refreshUser frame conditions -/

/-- **C8.** `refreshUser` is a no-op when no session is active; when the
fetch fails it changes nothing (no structured error, nothing cleared); when
it succeeds it replaces only the in-memory user with the re-transformed
record. -/
theorem C8_refreshUser_frame (st : ManagerState)
    (fr : Option DatabaseUserWithRelations) :
    (st.session = none → applyEffects st (refreshUser st.session fr) = st) ∧
    (fr = none → applyEffects st (refreshUser st.session fr) = st) ∧
    (∀ db, fr = some db → st.session ≠ none →
      applyEffects st (refreshUser st.session fr) =
        { st with user := transformDatabaseUser (some db) }) := by
  refine ⟨?_, ?_, ?_⟩
  · intro h; rw [h]; rfl
  · intro h; subst h; cases st.session <;> rfl
  · intro db hdb hs
    subst hdb
    obtain ⟨s, hsess⟩ := Option.ne_none_iff_exists'.mp hs
    have hr : refreshUser st.session (some db) = refreshUser (some s) (some db) := by
      rw [hsess]
    rw [hr]
    rfl

/-- Witness for C8: no-op on a logged-out state, frame on fetch failure, and
user-only replacement on fetch success, all at concrete states. -/
theorem C8_refreshUser_frame_witness :
    applyEffects loggedOutState (refreshUser loggedOutState.session none)
      = loggedOutState ∧
    applyEffects signedInState (refreshUser signedInState.session none)
      = signedInState ∧
    applyEffects signedInState
        (refreshUser signedInState.session (some hollowDbUser)) =
      { signedInState with user := transformDatabaseUser (some hollowDbUser) } :=
  ⟨(C8_refreshUser_frame loggedOutState none).1 rfl,
   (C8_refreshUser_frame signedInState none).2.1 rfl,
   (C8_refreshUser_frame signedInState (some hollowDbUser)).2.2 hollowDbUser rfl
     (Option.some_ne_none sampleSession)⟩

/-! ## C9: the sign-in family never writes the session -/

/-- `materializeAndStore` emits no `setSession` effect. -/
theorem setSession_not_mem_materialize (sv : Option Session)
    (rr : Except BackendError String) (fr : Option DatabaseUserWithRelations)
    (u : SupaUser) : Effect.setSession sv ∉ materializeAndStore rr fr u := by
  cases rr <;> cases fr <;>
    simp [materializeAndStore, createOrUpdateUser, transformDatabaseUser]

/-- **C9.** None of `signInAnonymously`, `signInWithEmail`, `signUpWithEmail`
ever writes the manager's `session` field, on success or failure — nor do
`refreshUser` and `clearError`; so within the manager only the startup
initialization, the subscription handler, and `signOut` write it. -/
theorem C9_signin_never_writes_session
    (ar : Except BackendError (Option SupaUser))
    (rr : Except BackendError String) (fr fr2 : Option DatabaseUserWithRelations)
    (em pw : String) (s : Option Session) (sv : Option Session) :
    Effect.setSession sv ∉ (signInAnonymously ar rr fr).1 ∧
    Effect.setSession sv ∉ (signInWithEmail em pw ar rr fr).1 ∧
    Effect.setSession sv ∉ (signUpWithEmail em pw ar rr fr).1 ∧
    Effect.setSession sv ∉ refreshUser s fr2 ∧
    Effect.setSession sv ∉ clearErrorEffects := by
  have hmat := setSession_not_mem_materialize sv rr fr
  refine ⟨?_, ?_, ?_, ?_, ?_⟩
  · cases ar with
    | error e => simp [signInAnonymously]
    | ok ou =>
        cases ou with
        | none => simp [signInAnonymously]
        | some u => simp [signInAnonymously, hmat u]
  · cases ar with
    | error e => simp [signInWithEmail]
    | ok ou =>
        cases ou with
        | none => simp [signInWithEmail]
        | some u => simp [signInWithEmail, hmat u]
  · cases ar with
    | error e => simp [signUpWithEmail]
    | ok ou =>
        cases ou with
        | none => simp [signUpWithEmail]
        | some u => simp [signUpWithEmail, hmat u]
  · cases s with
    | none => simp [refreshUser]
    | some s0 => cases fr2 <;> simp [refreshUser]
  · simp [clearErrorEffects]

/-! ## C10: failed sign-out keeps the authentication state -/

/-- **C10.** When the backend sign-out call fails, `signOut()` re-raises the
error and leaves user, session, and the persisted store untouched — only the
structured error (code defaulting to `auth/sign-out-failed`) and the cleared
loading flag change. -/
theorem C10_signOut_failure_frame (st : ManagerState) (e : BackendError) :
    (signOut (some e)).2 = some e ∧
    (applyEffects st (signOut (some e)).1).user = st.user ∧
    (applyEffects st (signOut (some e)).1).session = st.session ∧
    (applyEffects st (signOut (some e)).1).storage = st.storage ∧
    (applyEffects st (signOut (some e)).1).error =
      some (mkAuthError e "Failed to sign out" "auth/sign-out-failed") ∧
    (applyEffects st (signOut (some e)).1).loading = false :=
  ⟨rfl, rfl, rfl, rfl, rfl, rfl⟩

end PharmaGuide
